import Mathlib

/-!
Shallow embedding of the `dockerlogs` repository (src/main.rs, src/tui.rs):
the TUI application state (`AppState` in src/tui.rs) with its operations,
the log-line formatting performed by the log source tasks, the color
palettes of the TUI and of dump mode, and the watched-set gating of the
event loops in `run_logs_mode` (src/main.rs) and `run_tui` (src/tui.rs).

Modelling conventions:
- Rust `VecDeque<String>` becomes `List String`; `push_back` appends at the
  end, `pop_front` drops the head.
- Rust `HashMap<String, VecDeque<String>>` (`container_logs`) becomes a
  total function `String → List String`; an absent key is the empty list,
  which is observationally equivalent for every operation of the source
  (`entry().or_insert_with(empty)`, `get` feeding an extend, `remove`).
- `ratatui::ListState` is modelled by its one observable used in the
  source, `selected : Option usize`, as `Option Nat`.
- `sort_by(|a, b| a.name.cmp(&b.name))` is a stable sort; it is modelled
  by a stable insertion sort on the name order.
- Rust `str::trim` removes whitespace from BOTH ends; it is modelled at
  the character-list level with `Char.isWhitespace`.
-/

namespace DockerLogs

/-- One entry of `AppState.containers` (struct `ContainerInfo`, src/tui.rs). -/
structure ContainerInfo where
  id : String
  name : String
  selected : Bool
  color_index : Nat
deriving DecidableEq

/-- The shared TUI state (struct `AppState`, src/tui.rs). `list_selected`
is `list_state.selected()` of the source's `ListState`. -/
structure AppState where
  containers : List ContainerInfo
  list_selected : Option Nat
  logs : List String
  max_logs : Nat
  container_logs : String → List String
  color_counter : Nat
  show_info : Bool
  info_text : String
  select_all_focused : Bool

/-- `AppState::new` (src/tui.rs): empty state, ALL pseudo-row focused,
no list row selected. -/
def AppState.new (max_logs : Nat) : AppState where
  containers := []
  list_selected := none
  logs := []
  max_logs := max_logs
  container_logs := fun _ => []
  color_counter := 0
  show_info := false
  info_text := ""
  select_all_focused := true

/-- `AppState::next` (src/tui.rs): move focus down with wrap through the
ALL pseudo-row. The source computes `containers.len() - 1` in `usize`;
that branch is only ever reached with a row selected, which in every
reachable state implies a non-empty container list. -/
def AppState.next (s : AppState) : AppState :=
  if s.select_all_focused then
    let s := { s with select_all_focused := false }
    if !s.containers.isEmpty then { s with list_selected := some 0 } else s
  else
    match s.list_selected with
    | some i =>
        if i ≥ s.containers.length - 1 then
          { s with select_all_focused := true, list_selected := none }
        else
          { s with list_selected := some (i + 1) }
    | none => { s with select_all_focused := true }

/-- `AppState::previous` (src/tui.rs): move focus up with wrap through the
ALL pseudo-row. -/
def AppState.previous (s : AppState) : AppState :=
  if s.select_all_focused then
    if !s.containers.isEmpty then
      { s with select_all_focused := false,
               list_selected := some (s.containers.length - 1) }
    else s
  else
    match s.list_selected with
    | some i =>
        if i = 0 then
          { s with select_all_focused := true, list_selected := none }
        else
          { s with list_selected := some (i - 1) }
    | none => { s with select_all_focused := true }

/-- `AppState::update_displayed_logs` (src/tui.rs): clear the merged
buffer, concatenate the per-container buffers of the selected containers
in list order, and keep only the trailing `max_logs` entries. -/
def AppState.update_displayed_logs (s : AppState) : AppState :=
  let selected_names := (s.containers.filter (fun c => c.selected)).map (fun c => c.name)
  let all_logs := (selected_names.map (fun n => s.container_logs n)).flatten
  let start := if all_logs.length > s.max_logs then all_logs.length - s.max_logs else 0
  { s with logs := all_logs.drop start }

/-- `AppState::select_all` (src/tui.rs). -/
def AppState.select_all (s : AppState) : AppState :=
  ({ s with containers := s.containers.map (fun (c : ContainerInfo) => { c with selected := true }) }).update_displayed_logs

/-- `AppState::deselect_all` (src/tui.rs). -/
def AppState.deselect_all (s : AppState) : AppState :=
  ({ s with containers := s.containers.map (fun (c : ContainerInfo) => { c with selected := false }) }).update_displayed_logs

/-- `AppState::toggle_selected` (src/tui.rs): on the ALL row, toggle all
containers; on a list row, flip that row's `selected` and rebuild. -/
def AppState.toggle_selected (s : AppState) : AppState :=
  if s.select_all_focused then
    if s.containers.all (fun c => c.selected) then s.deselect_all else s.select_all
  else
    match s.list_selected with
    | some i =>
        if i < s.containers.length then
          let c := s.containers.getD i ⟨"", "", false, 0⟩
          ({ s with containers := s.containers.set i { c with selected := !c.selected } }).update_displayed_logs
        else s
    | none => s

/-- `AppState::is_container_selected` (src/tui.rs): some entry with this
name is selected (matching is by name, not id). -/
def AppState.is_container_selected (s : AppState) (container_name : String) : Bool :=
  s.containers.any (fun c => c.name == container_name && c.selected)

/-- The `push_back` + conditional `pop_front` eviction pattern used for
both buffers in `AppState::add_log` (src/tui.rs). -/
def push_evict (max_logs : Nat) (buf : List String) (line : String) : List String :=
  let buf := buf ++ [line]
  if buf.length > max_logs then buf.drop 1 else buf

/-- `AppState::add_log` (src/tui.rs): append to the per-container buffer
(keyed by name, evicting the oldest beyond `max_logs`), and, when some
container with that name is selected, also to the merged buffer. -/
def AppState.add_log (s : AppState) (container_name : String) (log_line : String) : AppState :=
  let new_buf := push_evict s.max_logs (s.container_logs container_name) log_line
  let s := { s with container_logs :=
               fun n => if n = container_name then new_buf else s.container_logs n }
  if s.is_container_selected container_name then
    { s with logs := push_evict s.max_logs s.logs log_line }
  else s

/-- Lexicographic order on character lists by codepoint; `Rust str::cmp`
compares UTF-8 bytes, and UTF-8 byte order coincides with codepoint
order. -/
def chars_le : List Char → List Char → Bool
  | [], _ => true
  | _ :: _, [] => false
  | a :: as, b :: bs =>
      if a.toNat < b.toNat then true
      else if b.toNat < a.toNat then false
      else chars_le as bs

/-- `a.cmp(&b)` on Rust strings, as a ≤ test. -/
def str_le (a b : String) : Bool :=
  chars_le a.toList b.toList

/-- Stable insertion of a container into a list sorted by name (the tie
behaviour of a stable sort: an inserted element goes after existing
elements with an equal name only when it started after them). -/
def sorted_insert (c : ContainerInfo) : List ContainerInfo → List ContainerInfo
  | [] => [c]
  | d :: l => if str_le c.name d.name then c :: d :: l else d :: sorted_insert c l

/-- Model of `containers.sort_by(|a, b| a.name.cmp(&b.name))`
(src/tui.rs, `add_container`): Rust's `sort_by` is stable; this is the
stable insertion sort on the name order. -/
def sort_by_name : List ContainerInfo → List ContainerInfo
  | [] => []
  | c :: l => sorted_insert c (sort_by_name l)

/-- `AppState::add_container` (src/tui.rs): idempotent on id; assigns the
next color index; auto-selects; keeps the list sorted by name; selects
list index 0 when this is the first container; rebuilds. -/
def AppState.add_container (s : AppState) (id name : String) : AppState :=
  if s.containers.any (fun c => c.id == id) then s
  else
    let color_index := s.color_counter
    let s := { s with color_counter := s.color_counter + 1,
                      containers := sort_by_name (s.containers ++ [({ id := id, name := name, selected := true, color_index := color_index } : ContainerInfo)]) }
    let s := if s.containers.length = 1 then { s with list_selected := some 0 } else s
    s.update_displayed_logs

/-- The `retain` step of `AppState::remove_container` (src/tui.rs):
`self.containers.retain(|c| c.id != id)`. -/
def remove_retain (s : AppState) (id : String) : AppState :=
  { s with containers := s.containers.filter (fun c => c.id != id) }

/-- The smart re-selection and buffer-cleanup block of
`AppState::remove_container` (src/tui.rs), run on the retained state when
the removed id had an entry (`if let Some(name) = removed_name`): if
another container shares the removed name, select all same-named entries;
else if the list is non-empty, select all; then drop the buffer stored
under the removed name. -/
def remove_reselect (s : AppState) : Option String → AppState
  | some name =>
      let s' :=
        if s.containers.any (fun c => c.name == name) then
          { s with containers :=
              s.containers.map (fun (c : ContainerInfo) =>
                if c.name == name then { c with selected := true } else c) }
        else if !s.containers.isEmpty then
          s.select_all
        else s
      { s' with container_logs := fun n => if n = name then [] else s'.container_logs n }
  | none => s

/-- The focus-clamp block of `AppState::remove_container` (src/tui.rs):
deselect when the list became empty, clamp the index otherwise. -/
def clamp_selection (s : AppState) : AppState :=
  if s.containers.isEmpty then { s with list_selected := none }
  else
    match s.list_selected with
    | some i =>
        if i ≥ s.containers.length then
          { s with list_selected := some (s.containers.length - 1) }
        else s
    | none => s

/-- `AppState::remove_container` (src/tui.rs): remember the removed
entry's name, drop the entry with this id, apply the smart re-selection
rule and drop the per-container buffer stored under the removed NAME,
clamp the focused index, rebuild. -/
def AppState.remove_container (s : AppState) (id : String) : AppState :=
  let removed_name := (s.containers.find? (fun c => c.id == id)).map (fun c => c.name)
  (clamp_selection (remove_reselect (remove_retain s id) removed_name)).update_displayed_logs

/-- The conceptual display colors used by the two palettes of the source:
`ratatui::style::Color` values in `get_color` (src/tui.rs; `Light*` is the
bright variant) and the `colored` crate styles in `start_logging_container`
(src/main.rs). `whiteOnBlack` is the unreachable wildcard arm of the
dump-mode match. -/
inductive DisplayColor where
  | cyan
  | magenta
  | yellow
  | green
  | brightGreen
  | brightBlue
  | brightYellow
  | brightMagenta
  | brightCyan
  | brightWhite
  | brightRed
  | whiteOnBlack
deriving DecidableEq

/-- `get_color` (src/tui.rs): the TUI palette, indexed by `index % 9`. -/
def get_color (index : Nat) : DisplayColor :=
  match index % 9 with
  | 0 => .cyan
  | 1 => .magenta
  | 2 => .yellow
  | 3 => .brightMagenta
  | 4 => .brightCyan
  | 5 => .brightGreen
  | 6 => .brightRed
  | 7 => .brightYellow
  | 8 => .brightBlue
  | _ => .cyan

/-- The color choice of dump mode (`start_logging_container`, src/main.rs):
`color_index % 9` over the `colored`-crate styles. -/
def dump_color (color_index : Nat) : DisplayColor :=
  match color_index % 9 with
  | 0 => .brightGreen
  | 1 => .brightBlue
  | 2 => .brightYellow
  | 3 => .brightMagenta
  | 4 => .brightCyan
  | 5 => .brightWhite
  | 6 => .brightRed
  | 7 => .yellow
  | 8 => .green
  | _ => .whiteOnBlack

/-- The TUI palette of `get_color` (src/tui.rs) as a list, slot 0 first. -/
def tui_palette : List DisplayColor :=
  [.cyan, .magenta, .yellow, .brightMagenta, .brightCyan, .brightGreen,
   .brightRed, .brightYellow, .brightBlue]

/-- The dump-mode palette of `start_logging_container` (src/main.rs) as a
list, slot 0 first. -/
def dump_palette : List DisplayColor :=
  [.brightGreen, .brightBlue, .brightYellow, .brightMagenta, .brightCyan,
   .brightWhite, .brightRed, .yellow, .green]

/-- A framed log chunk from the runtime (`docker_api::conn::TtyChunk`),
with its payload already decoded (the source decodes with
`String::from_utf8_lossy`; the decoded text is what the rest of the code
consumes, so the model carries it directly). -/
inductive TtyChunk where
  | stdIn : String → TtyChunk
  | stdOut : String → TtyChunk
  | stdErr : String → TtyChunk
deriving DecidableEq

/-- The payload carried by a chunk. -/
def chunk_payload : TtyChunk → String
  | .stdIn s => s
  | .stdOut s => s
  | .stdErr s => s

/-- The descriptor assigned to each chunk kind by the match in
`log_container` (src/tui.rs) and `start_logging_container` (src/main.rs). -/
def chunk_descriptor : TtyChunk → String
  | .stdIn _ => "i"
  | .stdOut _ => "o"
  | .stdErr _ => "e"

/-- Model of Rust `str::trim` (used as `line.trim()` in both log loops):
removes whitespace from BOTH ends of the string. -/
def rust_trim (s : String) : String :=
  (((s.toList.dropWhile Char.isWhitespace).reverse.dropWhile Char.isWhitespace).reverse).asString

/-- Trailing-only whitespace trimming, as the claim words it (leading
whitespace preserved); for comparison with `rust_trim`. -/
def trim_end_spec (s : String) : String :=
  ((s.toList.reverse.dropWhile Char.isWhitespace).reverse).asString

/-- Leading-only whitespace trimming; `rust_trim` is the composition of
this with `trim_end_spec`. -/
def trim_start_spec (s : String) : String :=
  (s.toList.dropWhile Char.isWhitespace).asString

/-- The stored/emitted line built from a chunk:
`format!("{} {}: {}", name, descriptor, line.trim())` in `log_container`
(src/tui.rs) and, modulo the coloring of the name, in
`start_logging_container` (src/main.rs). -/
def format_chunk (name : String) (c : TtyChunk) : String :=
  name ++ " " ++ chunk_descriptor c ++ ": " ++ rust_trim (chunk_payload c)

/-- A runtime event as consumed by the event loops: `type`, `action`, and
`actor.id`, each optional (`event.actor.and_then(|a| a.id)`). -/
structure DockerEvent where
  type_ : Option String
  action : Option String
  actor_id : Option String
deriving DecidableEq

/-- The id a start event contributes: `actor.id` when
`type == "container" && action == "start"`, otherwise nothing
(src/main.rs `run_logs_mode` event loop; src/tui.rs `run_tui` event task). -/
def container_start_id (e : DockerEvent) : Option String :=
  if e.type_ == some "container" && e.action == some "start" then e.actor_id else none

/-- One gating step of dump mode (`run_logs_mode`, src/main.rs): state is
(watched set, spawned ids in spawn order). An id is inserted and a task
spawned only when the id is not already watched; both the initial
container listing and the event loop run this same check. -/
def watch_gate_step (st : List String × List String) (oid : Option String) :
    List String × List String :=
  match oid with
  | none => st
  | some id => if st.1.contains id then st else (id :: st.1, st.2 ++ [id])

/-- Dump mode (`run_logs_mode`, src/main.rs): gate the initial container
listing, then the start events, through the shared watched set. Returns
(final watched set, spawned ids in order). -/
def run_logs_watch (initial_ids : List (Option String)) (events : List DockerEvent) :
    List String × List String :=
  (events.map container_start_id).foldl watch_gate_step
    (initial_ids.foldl watch_gate_step ([], []))

/-- TUI mode (`run_tui`, src/tui.rs): a `log_container` task is spawned
for every listed container and for every start event with an id, with no
watched-set check anywhere. Returns the spawned ids in order. -/
def run_tui_watch (initial_ids : List (Option String)) (events : List DockerEvent) :
    List String :=
  (initial_ids ++ events.map container_start_id).foldl
    (fun sp oid => match oid with | some id => sp ++ [id] | none => sp) []

/-- The merged-buffer value the claims describe: concatenation of the
per-container buffers of the currently selected containers in
container-list order, truncated to its trailing `max_logs` entries. -/
def merged_spec (s : AppState) : List String :=
  let all := ((s.containers.filter (fun c => c.selected)).map (fun c => s.container_logs c.name)).flatten
  all.drop (all.length - s.max_logs)

/-- Mutual exclusion of the two focus states: not both the ALL pseudo-row
focused and a list row selected. -/
def focus_exclusive (s : AppState) : Prop :=
  ¬(s.select_all_focused = true ∧ s.list_selected.isSome = true)

instance (s : AppState) : Decidable (focus_exclusive s) := by
  unfold focus_exclusive; infer_instance

/-- The operations a TUI session performs on the shared state. -/
inductive Op where
  | addLog : String → String → Op
  | toggleSelected : Op
  | selectAllOp : Op
  | deselectAllOp : Op
  | nextOp : Op
  | prevOp : Op
  | addContainer : String → String → Op
  | removeContainer : String → Op

/-- Apply one operation to the state. -/
def apply_op (s : AppState) : Op → AppState
  | .addLog n l => s.add_log n l
  | .toggleSelected => s.toggle_selected
  | .selectAllOp => s.select_all
  | .deselectAllOp => s.deselect_all
  | .nextOp => s.next
  | .prevOp => s.previous
  | .addContainer id n => s.add_container id n
  | .removeContainer id => s.remove_container id

/-- Run a sequence of operations from a state. -/
def run_ops (s : AppState) (ops : List Op) : AppState :=
  ops.foldl apply_op s

/-- The TUI entry point constructs the state with
`AppState::new(last_n_lines * 10)` (src/tui.rs, `run_tui`). -/
def tui_initial_state (last_n_lines : Nat) : AppState :=
  AppState.new (last_n_lines * 10)

/-- Scenario state for the two-container selection scenario: containers
`web` (id "w") and `db` (id "d") added to a fresh state. -/
def scenario_base : AppState :=
  ((AppState.new 100).add_container "w" "web").add_container "d" "db"

/-- Scenario state after the lines W1 (web), D1 (db), W2 (web) arrive. -/
def scenario_logged : AppState :=
  ((scenario_base.add_log "web" "W1").add_log "db" "D1").add_log "web" "W2"

/-- Scenario state with the focus moved to the `web` row (the list is
sorted by name, so `db` is row 0 and `web` is row 1). -/
def scenario_focus_web : AppState :=
  scenario_logged.next.next

/-- Scenario state after toggling `web` off. -/
def scenario_deselected : AppState :=
  scenario_focus_web.toggle_selected

/-- Scenario state after toggling `web` back on. -/
def scenario_reselected : AppState :=
  scenario_deselected.toggle_selected

/-- Concrete state with two containers both named `web` (ids `w1`, `w2`)
sharing the per-container buffer stored under the name `web`. -/
def twin_web_state : AppState where
  containers := [⟨"w1", "web", true, 0⟩, ⟨"w2", "web", true, 1⟩]
  list_selected := some 0
  logs := ["L1"]
  max_logs := 10
  container_logs := fun n => if n = "web" then ["L1"] else []
  color_counter := 2
  show_info := false
  info_text := ""
  select_all_focused := false

/-- The buffer-bound invariant: every per-container buffer and the merged
buffer hold at most `max_logs` lines. -/
def buffers_bounded (s : AppState) : Prop :=
  (∀ n, (s.container_logs n).length ≤ s.max_logs) ∧ s.logs.length ≤ s.max_logs

/-- A state whose per-container buffer for `a` is full (`max_logs = 1`),
for exercising the FIFO eviction. -/
def full_buffer_state : AppState :=
  { AppState.new 1 with container_logs := fun n => if n = "a" then ["x"] else [] }

/-! ## Helper lemmas -/

@[simp]
theorem update_displayed_logs_containers (s : AppState) :
    (s.update_displayed_logs).containers = s.containers := rfl

@[simp]
theorem update_displayed_logs_container_logs (s : AppState) :
    (s.update_displayed_logs).container_logs = s.container_logs := rfl

@[simp]
theorem update_displayed_logs_max_logs (s : AppState) :
    (s.update_displayed_logs).max_logs = s.max_logs := rfl

@[simp]
theorem update_displayed_logs_list_selected (s : AppState) :
    (s.update_displayed_logs).list_selected = s.list_selected := rfl

@[simp]
theorem update_displayed_logs_select_all_focused (s : AppState) :
    (s.update_displayed_logs).select_all_focused = s.select_all_focused := rfl

/-- The rebuild of `update_displayed_logs` computes exactly the
merged-buffer value the spec describes. -/
theorem update_displayed_logs_logs (s : AppState) :
    (s.update_displayed_logs).logs = merged_spec s := by
  unfold AppState.update_displayed_logs merged_spec
  simp only [List.map_map, Function.comp_def]
  congr 1
  split
  · rfl
  · omega

/-- `merged_spec` reads only `containers`, `container_logs` and
`max_logs`, all untouched by the rebuild. -/
theorem merged_spec_update (s : AppState) :
    merged_spec s.update_displayed_logs = merged_spec s := rfl

/-- After a rebuild, the merged buffer of the resulting state matches the
spec value of that same state. -/
theorem update_displayed_logs_ok (s : AppState) :
    (s.update_displayed_logs).logs = merged_spec s.update_displayed_logs := by
  rw [update_displayed_logs_logs, merged_spec_update]

/-- `select_all` ends in a rebuild, so its merged buffer is the spec value. -/
theorem select_all_ok (s : AppState) :
    (s.select_all).logs = merged_spec s.select_all :=
  update_displayed_logs_ok _

/-- `deselect_all` ends in a rebuild, so its merged buffer is the spec value. -/
theorem deselect_all_ok (s : AppState) :
    (s.deselect_all).logs = merged_spec s.deselect_all :=
  update_displayed_logs_ok _

/-- `remove_container` ends in a rebuild, so its merged buffer is the spec
value. -/
theorem remove_container_ok (s : AppState) (id : String) :
    (s.remove_container id).logs = merged_spec (s.remove_container id) :=
  update_displayed_logs_ok _

/-- Whenever `toggle_selected` actually changes a selection (ALL focused,
or a row within range focused), it ends in a rebuild. -/
theorem toggle_selected_ok (s : AppState)
    (h : s.select_all_focused = true ∨
         ∃ i, s.list_selected = some i ∧ i < s.containers.length) :
    (s.toggle_selected).logs = merged_spec s.toggle_selected := by
  unfold AppState.toggle_selected
  rcases h with h | ⟨i, hi, hlt⟩
  · simp only [h, if_true]
    split
    · exact update_displayed_logs_ok _
    · exact update_displayed_logs_ok _
  · rcases hfoc : s.select_all_focused with _ | _
    · simp only [hfoc, Bool.false_eq_true, if_false, hi]
      simp only [hlt, if_true]
      exact update_displayed_logs_ok _
    · simp only [hfoc, if_true]
      split
      · exact update_displayed_logs_ok _
      · exact update_displayed_logs_ok _

/-! ## Field-preservation lemmas for the focus moves -/

theorem next_containers (s : AppState) : (s.next).containers = s.containers := by
  unfold AppState.next
  dsimp only
  split
  · split <;> rfl
  · split
    · split <;> rfl
    · rfl

theorem next_logs (s : AppState) : (s.next).logs = s.logs := by
  unfold AppState.next
  dsimp only
  split
  · split <;> rfl
  · split
    · split <;> rfl
    · rfl

theorem next_container_logs (s : AppState) :
    (s.next).container_logs = s.container_logs := by
  unfold AppState.next
  dsimp only
  split
  · split <;> rfl
  · split
    · split <;> rfl
    · rfl

theorem next_max_logs (s : AppState) : (s.next).max_logs = s.max_logs := by
  unfold AppState.next
  dsimp only
  split
  · split <;> rfl
  · split
    · split <;> rfl
    · rfl

theorem previous_logs (s : AppState) : (s.previous).logs = s.logs := by
  unfold AppState.previous
  split
  · split <;> rfl
  · split
    · split <;> rfl
    · rfl

theorem previous_container_logs (s : AppState) :
    (s.previous).container_logs = s.container_logs := by
  unfold AppState.previous
  split
  · split <;> rfl
  · split
    · split <;> rfl
    · rfl

theorem previous_max_logs (s : AppState) : (s.previous).max_logs = s.max_logs := by
  unfold AppState.previous
  split
  · split <;> rfl
  · split
    · split <;> rfl
    · rfl

/-! ## Claim C2 -/

/-- C2: immediately after any selection change (`toggle_selected`,
`select_all`, `deselect_all`) or container removal, the merged buffer
equals the concatenation of the per-container buffers of the selected
containers in container-list order, truncated to its trailing `max_logs`
entries (`merged_spec`). For `toggle_selected` the hypothesis states that
a selection change actually happens: the ALL pseudo-row is focused, or a
list row within range is focused. -/
theorem claim_c2 (s : AppState) (id : String)
    (h : s.select_all_focused = true ∨
         ∃ i, s.list_selected = some i ∧ i < s.containers.length) :
    (s.select_all).logs = merged_spec s.select_all
    ∧ (s.deselect_all).logs = merged_spec s.deselect_all
    ∧ (s.remove_container id).logs = merged_spec (s.remove_container id)
    ∧ (s.toggle_selected).logs = merged_spec s.toggle_selected :=
  ⟨select_all_ok s, deselect_all_ok s, remove_container_ok s id, toggle_selected_ok s h⟩

/-- Witness for C2 at the concrete two-container scenario state. -/
theorem claim_c2_witness :
    (scenario_logged.select_all).logs = merged_spec scenario_logged.select_all
    ∧ (scenario_logged.deselect_all).logs = merged_spec scenario_logged.deselect_all
    ∧ (scenario_logged.remove_container "w").logs
        = merged_spec (scenario_logged.remove_container "w")
    ∧ (scenario_logged.toggle_selected).logs = merged_spec scenario_logged.toggle_selected :=
  claim_c2 scenario_logged "w" (Or.inl (by decide))

/-! ## Claim C4: bounded buffers -/

theorem push_evict_length {m : Nat} {xs : List String} {l : String}
    (h : xs.length ≤ m) : (push_evict m xs l).length ≤ m := by
  unfold push_evict
  dsimp only
  split <;> simp_all

theorem update_displayed_logs_logs_length (s : AppState) :
    (s.update_displayed_logs).logs.length ≤ s.max_logs := by
  show (List.drop _ _).length ≤ _
  rw [List.length_drop]
  split <;> omega

theorem add_log_bounded (s : AppState) (n l : String) (h : buffers_bounded s) :
    buffers_bounded (s.add_log n l) ∧ (s.add_log n l).max_logs = s.max_logs := by
  obtain ⟨hc, hl⟩ := h
  unfold AppState.add_log
  dsimp only
  constructor
  · constructor
    · intro m
      split <;> dsimp only <;> split <;>
        first
          | exact push_evict_length (hc _)
          | exact hc _
    · split
      · exact push_evict_length hl
      · exact hl
  · split <;> rfl

theorem select_all_bounded (s : AppState) (h : buffers_bounded s) :
    buffers_bounded s.select_all ∧ (s.select_all).max_logs = s.max_logs := by
  refine ⟨⟨fun n => h.1 n, ?_⟩, rfl⟩
  exact update_displayed_logs_logs_length _

theorem deselect_all_bounded (s : AppState) (h : buffers_bounded s) :
    buffers_bounded s.deselect_all ∧ (s.deselect_all).max_logs = s.max_logs := by
  refine ⟨⟨fun n => h.1 n, ?_⟩, rfl⟩
  exact update_displayed_logs_logs_length _

theorem toggle_selected_bounded (s : AppState) (h : buffers_bounded s) :
    buffers_bounded s.toggle_selected
    ∧ (s.toggle_selected).max_logs = s.max_logs := by
  unfold AppState.toggle_selected
  split
  · split
    · exact deselect_all_bounded s h
    · exact select_all_bounded s h
  · split
    · split
      · refine ⟨⟨fun n => h.1 n, ?_⟩, rfl⟩
        exact update_displayed_logs_logs_length _
      · exact ⟨h, rfl⟩
    · exact ⟨h, rfl⟩

theorem next_bounded (s : AppState) (h : buffers_bounded s) :
    buffers_bounded s.next ∧ (s.next).max_logs = s.max_logs := by
  refine ⟨?_, next_max_logs s⟩
  unfold buffers_bounded
  rw [next_logs, next_container_logs, next_max_logs]
  exact h

theorem previous_bounded (s : AppState) (h : buffers_bounded s) :
    buffers_bounded s.previous ∧ (s.previous).max_logs = s.max_logs := by
  refine ⟨?_, previous_max_logs s⟩
  unfold buffers_bounded
  rw [previous_logs, previous_container_logs, previous_max_logs]
  exact h

theorem add_container_bounded (s : AppState) (id nm : String) (h : buffers_bounded s) :
    buffers_bounded (s.add_container id nm)
    ∧ (s.add_container id nm).max_logs = s.max_logs := by
  unfold AppState.add_container
  dsimp only
  split
  · exact ⟨h, rfl⟩
  · split <;>
      exact ⟨⟨fun n => h.1 n, update_displayed_logs_logs_length _⟩, rfl⟩

theorem select_all_container_logs (s : AppState) :
    (s.select_all).container_logs = s.container_logs := rfl

theorem select_all_containers_eq (s : AppState) :
    (s.select_all).containers
      = s.containers.map (fun (c : ContainerInfo) => { c with selected := true }) := rfl

theorem select_all_max_logs (s : AppState) :
    (s.select_all).max_logs = s.max_logs := rfl

theorem remove_reselect_container_logs (s : AppState) (o : Option String) (n : String) :
    (remove_reselect s o).container_logs n = s.container_logs n
    ∨ (remove_reselect s o).container_logs n = [] := by
  cases o with
  | none => exact Or.inl rfl
  | some name =>
      unfold remove_reselect
      dsimp only
      by_cases hn : n = name
      · right
        simp [hn]
      · left
        simp only [hn, if_false]
        split
        · rfl
        · split <;> rfl

theorem remove_reselect_max_logs (s : AppState) (o : Option String) :
    (remove_reselect s o).max_logs = s.max_logs := by
  cases o with
  | none => rfl
  | some name =>
      unfold remove_reselect
      dsimp only
      split
      · rfl
      · split <;> rfl

theorem clamp_selection_container_logs (s : AppState) :
    (clamp_selection s).container_logs = s.container_logs := by
  unfold clamp_selection
  split
  · rfl
  · split
    · split <;> rfl
    · rfl

theorem clamp_selection_max_logs (s : AppState) :
    (clamp_selection s).max_logs = s.max_logs := by
  unfold clamp_selection
  split
  · rfl
  · split
    · split <;> rfl
    · rfl

theorem clamp_selection_containers (s : AppState) :
    (clamp_selection s).containers = s.containers := by
  unfold clamp_selection
  split
  · rfl
  · split
    · split <;> rfl
    · rfl

theorem remove_container_bounded (s : AppState) (id : String) (h : buffers_bounded s) :
    buffers_bounded (s.remove_container id)
    ∧ (s.remove_container id).max_logs = s.max_logs := by
  unfold AppState.remove_container
  dsimp only
  set o := (s.containers.find? (fun c => c.id == id)).map (fun c => c.name)
  have hmax : (clamp_selection (remove_reselect (remove_retain s id) o)).max_logs
      = s.max_logs := by
    rw [clamp_selection_max_logs, remove_reselect_max_logs]
    rfl
  refine ⟨⟨fun n => ?_, ?_⟩, ?_⟩
  · rw [update_displayed_logs_container_logs, update_displayed_logs_max_logs,
        clamp_selection_container_logs, hmax]
    rcases remove_reselect_container_logs (remove_retain s id) o n with heq | heq
    · rw [heq]
      exact h.1 n
    · rw [heq]
      exact Nat.zero_le _
  · rw [update_displayed_logs_max_logs, hmax]
    have := update_displayed_logs_logs_length
      (clamp_selection (remove_reselect (remove_retain s id) o))
    omega
  · rw [update_displayed_logs_max_logs, hmax]

theorem apply_op_bounded (s : AppState) (op : Op) (h : buffers_bounded s) :
    buffers_bounded (apply_op s op) ∧ (apply_op s op).max_logs = s.max_logs := by
  cases op with
  | addLog n l => exact add_log_bounded s n l h
  | toggleSelected => exact toggle_selected_bounded s h
  | selectAllOp => exact select_all_bounded s h
  | deselectAllOp => exact deselect_all_bounded s h
  | nextOp => exact next_bounded s h
  | prevOp => exact previous_bounded s h
  | addContainer id n => exact add_container_bounded s id n h
  | removeContainer id => exact remove_container_bounded s id h

theorem run_ops_bounded (ops : List Op) (s : AppState) (h : buffers_bounded s) :
    buffers_bounded (run_ops s ops) ∧ (run_ops s ops).max_logs = s.max_logs := by
  induction ops generalizing s with
  | nil => exact ⟨h, rfl⟩
  | cons op rest ih =>
      have h1 := apply_op_bounded s op h
      have h2 := ih (apply_op s op) h1.1
      exact ⟨h2.1, h2.2.trans h1.2⟩

theorem new_bounded (m : Nat) : buffers_bounded (AppState.new m) :=
  ⟨fun _ => by simp [AppState.new], by simp [AppState.new]⟩

/-- Eviction is FIFO: `add_log` into a full per-container buffer drops
exactly the oldest line and appends the new one at the back. -/
theorem add_log_fifo (t : AppState) (nm line : String)
    (hfull : (t.container_logs nm).length = t.max_logs) (hpos : 0 < t.max_logs) :
    (t.add_log nm line).container_logs nm = (t.container_logs nm).drop 1 ++ [line] := by
  have hbuf : push_evict t.max_logs (t.container_logs nm) line
      = (t.container_logs nm).drop 1 ++ [line] := by
    unfold push_evict
    dsimp only
    have hlen : (t.container_logs nm ++ [line]).length > t.max_logs := by
      simp [hfull]
    rw [if_pos hlen]
    rcases hcl : t.container_logs nm with _ | ⟨x, xs⟩
    · rw [hcl] at hfull
      simp at hfull
      omega
    · simp
  unfold AppState.add_log
  dsimp only
  split <;> simp [hbuf]

/-- C4: from any constructed state (`AppState::new max`, and in TUI mode
`AppState::new (last_n_lines * 10)`), after every sequence of `add_log`,
selection, focus, `add_container` and `remove_container` operations,
every per-container buffer and the merged buffer hold at most `max_logs`
lines; eviction on a full per-container buffer is FIFO (drop the oldest,
append at the back). -/
theorem claim_c4 (max k : Nat) (ops : List Op) (n : String)
    (t : AppState) (nm line : String)
    (hfull : (t.container_logs nm).length = t.max_logs) (hpos : 0 < t.max_logs) :
    ((run_ops (AppState.new max) ops).container_logs n).length ≤ max
    ∧ (run_ops (AppState.new max) ops).logs.length ≤ max
    ∧ ((run_ops (tui_initial_state k) ops).container_logs n).length ≤ k * 10
    ∧ (run_ops (tui_initial_state k) ops).logs.length ≤ k * 10
    ∧ (t.add_log nm line).container_logs nm = (t.container_logs nm).drop 1 ++ [line] := by
  unfold tui_initial_state
  have h1 := run_ops_bounded ops (AppState.new max) (new_bounded max)
  have h2 := run_ops_bounded ops (AppState.new (k * 10)) (new_bounded (k * 10))
  have hm1 : (run_ops (AppState.new max) ops).max_logs = max := h1.2
  have hm2 : (run_ops (AppState.new (k * 10)) ops).max_logs = k * 10 := h2.2
  refine ⟨?_, ?_, ?_, ?_, add_log_fifo t nm line hfull hpos⟩
  · have := h1.1.1 n
    omega
  · have := h1.1.2
    omega
  · have := h2.1.1 n
    omega
  · have := h2.1.2
    omega

/-- Witness for C4: concrete run from `AppState.new 2` and the FIFO
eviction at a concrete full buffer (`full_buffer_state`, `max_logs = 1`). -/
theorem claim_c4_witness :
    ((run_ops (AppState.new 2) [Op.addLog "a" "x", Op.addContainer "i" "a",
        Op.toggleSelected]).container_logs "a").length ≤ 2
    ∧ (run_ops (AppState.new 2) [Op.addLog "a" "x", Op.addContainer "i" "a",
        Op.toggleSelected]).logs.length ≤ 2
    ∧ ((run_ops (tui_initial_state 1) [Op.addLog "a" "x", Op.addContainer "i" "a",
        Op.toggleSelected]).container_logs "a").length ≤ 1 * 10
    ∧ (run_ops (tui_initial_state 1) [Op.addLog "a" "x", Op.addContainer "i" "a",
        Op.toggleSelected]).logs.length ≤ 1 * 10
    ∧ (full_buffer_state.add_log "a" "y").container_logs "a"
        = (full_buffer_state.container_logs "a").drop 1 ++ ["y"] :=
  claim_c4 2 1 [Op.addLog "a" "x", Op.addContainer "i" "a", Op.toggleSelected]
    "a" full_buffer_state "a" "y" (by decide) (by decide)

/-! ## Claim C10: add_log appends to the merged buffer iff a same-named
container is selected -/

theorem any_selected_iff (s : AppState) (name : String) :
    (s.containers.any fun c => c.name == name && c.selected) = true
    ↔ ∃ c ∈ s.containers, c.name = name ∧ c.selected = true := by
  simp [List.any_eq_true, Bool.and_eq_true, beq_iff_eq]

/-- C10: `add_log name line` appends `line` to the merged buffer (with
the usual eviction) if and only if at least one container entry whose
NAME equals `name` is currently selected; the per-container buffer under
`name` is created or extended either way. -/
theorem claim_c10 (s : AppState) (name line : String) :
    ((∃ c ∈ s.containers, c.name = name ∧ c.selected = true) →
       (s.add_log name line).logs = push_evict s.max_logs s.logs line)
    ∧ (¬(∃ c ∈ s.containers, c.name = name ∧ c.selected = true) →
       (s.add_log name line).logs = s.logs)
    ∧ (s.add_log name line).container_logs name
        = push_evict s.max_logs (s.container_logs name) line := by
  unfold AppState.add_log AppState.is_container_selected
  dsimp only
  refine ⟨fun hex => ?_, fun hnex => ?_, ?_⟩
  · rw [if_pos ((any_selected_iff s name).mpr hex)]
  · rw [if_neg (fun h => hnex ((any_selected_iff s name).mp h))]
  · split <;> simp

/-- Witness for C10 at `twin_web_state`: name `web` has a selected entry
(so the merged buffer is appended to), name `ghost` has no entry (so the
merged buffer is unchanged while the `ghost` buffer is created). -/
theorem claim_c10_witness :
    (twin_web_state.add_log "web" "Z").logs
      = push_evict twin_web_state.max_logs twin_web_state.logs "Z"
    ∧ (twin_web_state.add_log "ghost" "Z").logs = twin_web_state.logs
    ∧ (twin_web_state.add_log "ghost" "Z").container_logs "ghost"
        = push_evict twin_web_state.max_logs (twin_web_state.container_logs "ghost") "Z" :=
  ⟨(claim_c10 twin_web_state "web" "Z").1 (by decide),
   (claim_c10 twin_web_state "ghost" "Z").2.1 (by decide),
   (claim_c10 twin_web_state "ghost" "Z").2.2⟩

/-! ## Claim C7: focus exclusivity -/

/-- C7 counterexample: adding the first container to a fresh state
selects list index 0 while `select_all_focused` is still `true`, so both
the ALL pseudo-row and list index 0 are focused at once. -/
theorem claim_c7_counterexample :
    ¬ focus_exclusive ((AppState.new 5).add_container "id1" "web") := by
  decide

/-- C7 amended: `next` always establishes focus exclusivity, and
`previous` preserves it; but it does NOT hold right after `add_container`
inserts the first container (see the counterexample), so it is not an
invariant of every reachable state. -/
theorem claim_c7_amended (s : AppState) :
    focus_exclusive s.next ∧ (focus_exclusive s → focus_exclusive s.previous) := by
  constructor
  · unfold AppState.next focus_exclusive
    dsimp only
    split
    · split <;> simp
    · split
      · split <;> simp_all
      · simp_all
  · intro h
    unfold AppState.previous focus_exclusive
    split
    · split
      · simp
      · exact h
    · split
      · split <;> simp_all
      · simp_all [focus_exclusive]

/-- Witness for C7 amended at a fresh state. -/
theorem claim_c7_amended_witness :
    focus_exclusive (AppState.new 3).next ∧ focus_exclusive (AppState.new 3).previous :=
  ⟨(claim_c7_amended (AppState.new 3)).1,
   (claim_c7_amended (AppState.new 3)).2 (by decide)⟩

/-! ## Claim C6: focus rotation -/

/-- From a state focused on list row `i` with `i + k + 1` containers,
`k + 1` applications of `next` land on the ALL pseudo-row. -/
theorem next_rotation (k : Nat) :
    ∀ (s : AppState) (i : Nat),
    s.select_all_focused = false → s.list_selected = some i →
    i + k + 1 = s.containers.length →
    (AppState.next^[k + 1] s).select_all_focused = true
    ∧ (AppState.next^[k + 1] s).list_selected = none := by
  induction k with
  | zero =>
      intro s i hfoc hsel hlen
      have hge : i ≥ s.containers.length - 1 := by omega
      rw [Function.iterate_succ_apply, Function.iterate_zero_apply]
      unfold AppState.next
      simp [hfoc, hsel, hge]
  | succ k ih =>
      intro s i hfoc hsel hlen
      have hlt : ¬ i ≥ s.containers.length - 1 := by omega
      have hnext : s.next = { s with list_selected := some (i + 1) } := by
        unfold AppState.next
        simp [hfoc, hsel, hlt]
      rw [Function.iterate_succ_apply, hnext]
      refine ih { s with list_selected := some (i + 1) } (i + 1) hfoc rfl ?_
      show i + 1 + k + 1 = s.containers.length
      omega

/-- C6 amended: with `N ≥ 1` containers, `next` applied `N + 1` times
from an ALL-focused state returns the focus to ALL; `previous` from ALL
with a non-empty list focuses the last row. With an empty list,
`previous` from ALL leaves the state unchanged, but `next` from ALL
CLEARS the ALL focus without focusing any row (a second `next` brings the
focus back to ALL) — so the claim's `N = 0` case fails. -/
theorem claim_c6_amended (s : AppState) (N : Nat)
    (hfoc : s.select_all_focused = true) (hN : s.containers.length = N) :
    (1 ≤ N →
      (AppState.next^[N + 1] s).select_all_focused = true
      ∧ (AppState.next^[N + 1] s).list_selected = none)
    ∧ (s.containers ≠ [] →
      (s.previous).select_all_focused = false
      ∧ (s.previous).list_selected = some (N - 1))
    ∧ (s.containers = [] →
      s.previous = s
      ∧ (s.next).select_all_focused = false
      ∧ (s.next).list_selected = s.list_selected
      ∧ (s.list_selected = none →
          ((s.next).next).select_all_focused = true
          ∧ ((s.next).next).list_selected = none)) := by
  refine ⟨fun hNpos => ?_, fun hne => ?_, fun hemp => ?_⟩
  · have hne : ¬ s.containers.isEmpty := by
      rw [List.isEmpty_iff]
      intro h
      rw [h] at hN
      simp at hN
      omega
    have hnext : s.next
        = { s with select_all_focused := false, list_selected := some 0 } := by
      unfold AppState.next
      simp [hfoc, hne]
    rw [show N + 1 = (N - 1) + 1 + 1 by omega, Function.iterate_succ_apply, hnext]
    refine next_rotation (N - 1) _ 0 rfl rfl ?_
    show 0 + (N - 1) + 1 = s.containers.length
    omega
  · have hne2 : ¬ s.containers.isEmpty := by
      rw [List.isEmpty_iff]
      exact hne
    have hprev : s.previous
        = { s with select_all_focused := false,
                   list_selected := some (s.containers.length - 1) } := by
      unfold AppState.previous
      simp [hfoc, hne2]
    rw [hprev, hN]
    exact ⟨rfl, rfl⟩
  · have hemp2 : s.containers.isEmpty := by
      rw [List.isEmpty_iff]
      exact hemp
    have hprev : s.previous = s := by
      unfold AppState.previous
      simp [hfoc, hemp2]
    have hnext : s.next = { s with select_all_focused := false } := by
      unfold AppState.next
      simp [hfoc, hemp2]
    refine ⟨hprev, by rw [hnext], by rw [hnext], fun hnil => ?_⟩
    rw [hnext]
    have hnext2 : ({ s with select_all_focused := false } : AppState).next
        = { s with select_all_focused := true } := by
      unfold AppState.next
      simp [hnil]
    rw [hnext2]
    exact ⟨rfl, hnil⟩

/-- C6 counterexample: with `N = 0` containers, one application of `next`
(the claim's `N + 1`) from the ALL-focused fresh state does NOT return
the focus to ALL — it clears `select_all_focused`. This also refutes the
claim's "with an empty list, `next` from ALL leaves the focus on ALL". -/
theorem claim_c6_counterexample :
    ((AppState.new 5).next).select_all_focused ≠ true := by
  decide

/-- Witness for C6 amended at the concrete two-container scenario state
(`N = 2`). -/
theorem claim_c6_amended_witness :
    (AppState.next^[3] scenario_logged).select_all_focused = true
    ∧ (AppState.next^[3] scenario_logged).list_selected = none
    ∧ (scenario_logged.previous).select_all_focused = false
    ∧ (scenario_logged.previous).list_selected = some 1 := by
  have h := claim_c6_amended scenario_logged 2 (by decide) (by decide)
  have h1 := h.1 (by omega)
  have h2 := h.2.1 (by decide)
  exact ⟨h1.1, h1.2, h2.1, h2.2⟩

/-! ## Claim C1: end-to-end selection scenario -/

/-- C1 counterexample: in the two-container scenario the first two
checkpoints hold, but after re-selecting `web` the merged buffer is NOT
`[W1, D1, W2]` — the rebuild groups lines by container in list order
(`db` before `web`), producing `[D1, W1, W2]`. -/
theorem claim_c1_counterexample :
    ¬(scenario_logged.logs = ["W1", "D1", "W2"]
      ∧ scenario_deselected.logs = ["D1"]
      ∧ scenario_reselected.logs = ["W1", "D1", "W2"]) := by
  decide

/-- C1 amended: with `web` and `db` both selected, after W1, D1, W2 the
merged buffer is `[W1, D1, W2]`; after deselecting `web` it is `[D1]`;
after re-selecting `web` it is `[D1, W1, W2]` — the rebuild concatenates
the per-container buffers in container-list order (names ascending), so
the original arrival interleaving is not restored. -/
theorem claim_c1_amended :
    scenario_logged.logs = ["W1", "D1", "W2"]
    ∧ scenario_deselected.logs = ["D1"]
    ∧ scenario_reselected.logs = ["D1", "W1", "W2"] := by
  decide

/-! ## Claim C3: watched-set gating of task spawns -/

/-- Fold invariant for the dump-mode gate: the spawned list stays
duplicate-free and stays inside the watched set. -/
theorem watch_gate_foldl_nodup (l : List (Option String)) :
    ∀ st : List String × List String, st.2.Nodup → (∀ x ∈ st.2, x ∈ st.1) →
    (l.foldl watch_gate_step st).2.Nodup
    ∧ ∀ x ∈ (l.foldl watch_gate_step st).2, x ∈ (l.foldl watch_gate_step st).1 := by
  induction l with
  | nil => exact fun st h1 h2 => ⟨h1, h2⟩
  | cons oid rest ih =>
      intro st h1 h2
      rw [List.foldl_cons]
      cases oid with
      | none => exact ih st h1 h2
      | some id =>
          by_cases hc : st.1.contains id
          · have : watch_gate_step st (some id) = st := by
              unfold watch_gate_step
              dsimp only
              rw [if_pos hc]
            rw [this]
            exact ih st h1 h2
          · have hstep : watch_gate_step st (some id) = (id :: st.1, st.2 ++ [id]) := by
              unfold watch_gate_step
              dsimp only
              rw [if_neg hc]
            rw [hstep]
            have hidnot : id ∉ st.2 := by
              intro hmem
              exact hc (List.elem_eq_true_of_mem (h2 id hmem))
            refine ih _ ?_ ?_
            · simp [List.nodup_append, h1, hidnot]
            · intro x hx
              rcases List.mem_append.mp hx with hx | hx
              · exact List.mem_cons_of_mem _ (h2 x hx)
              · simp at hx
                simp [hx]

/-- The TUI spawn fold just collects every available id. -/
theorem tui_spawn_foldl (l : List (Option String)) :
    ∀ sp : List String,
    l.foldl (fun sp oid => match oid with | some id => sp ++ [id] | none => sp) sp
      = sp ++ l.reduceOption := by
  induction l with
  | nil => simp
  | cons oid rest ih =>
      intro sp
      cases oid with
      | none => simp [ih]
      | some id => simp [ih]

/-- C3 counterexample: in TUI mode (`run_tui`, src/tui.rs) there is no
watched-set check at all — two start events for the same id `x` spawn two
log source tasks, so an id already owned by a running task IS attached a
second time. -/
theorem claim_c3_counterexample :
    ¬ (run_tui_watch []
        [⟨some "container", some "start", some "x"⟩,
         ⟨some "container", some "start", some "x"⟩]).Nodup := by
  decide

/-- C3 amended: only dump mode (`run_logs_mode`, src/main.rs) gates task
spawns through the Watched set — its spawned ids are duplicate-free. TUI
mode spawns a task for every listed container and every container-start
event with an id, unconditionally, so duplicate attachment is possible
there (only the container-list entry is deduplicated, by
`add_container`'s id-idempotence). -/
theorem claim_c3_amended (initial_ids : List (Option String)) (events : List DockerEvent) :
    (run_logs_watch initial_ids events).2.Nodup
    ∧ run_tui_watch initial_ids events
        = (initial_ids ++ events.map container_start_id).reduceOption := by
  constructor
  · unfold run_logs_watch
    have h0 := watch_gate_foldl_nodup initial_ids ([], []) (by simp) (by simp)
    exact (watch_gate_foldl_nodup (events.map container_start_id) _ h0.1 h0.2).1
  · unfold run_tui_watch
    rw [tui_spawn_foldl]
    simp

/-! ## Claim C5: log-line formatting -/

/-- C5 counterexample: the code formats with Rust `str::trim`, which
strips LEADING whitespace too; on the payload `"  hi  "` the emitted line
differs from the claim's value (trailing-only trim, leading preserved). -/
theorem claim_c5_counterexample :
    format_chunk "web" (TtyChunk.stdOut "  hi  ")
      ≠ "web" ++ " " ++ "o" ++ ": " ++ trim_end_spec "  hi  " := by
  decide

/-- C5 amended: the stored/emitted line is
`"<name> <descriptor>: <text>"` with descriptor `i`/`o`/`e` for
stdin/stdout/stderr, where `text` is the chunk payload with BOTH leading
and trailing whitespace trimmed (Rust `str::trim`), not trailing-only. -/
theorem claim_c5_amended (name s : String) (c : TtyChunk) :
    chunk_descriptor (TtyChunk.stdIn s) = "i"
    ∧ chunk_descriptor (TtyChunk.stdOut s) = "o"
    ∧ chunk_descriptor (TtyChunk.stdErr s) = "e"
    ∧ format_chunk name c
        = name ++ " " ++ chunk_descriptor c ++ ": "
            ++ trim_end_spec (trim_start_spec (chunk_payload c)) := by
  refine ⟨rfl, rfl, rfl, ?_⟩
  unfold format_chunk rust_trim trim_end_spec trim_start_spec
  rfl

/-! ## Claim C9: color palettes -/

/-- C9 counterexample: the TUI (`get_color`, src/tui.rs) and dump mode
(`start_logging_container`, src/main.rs) disagree already at
`color_index = 0`: cyan versus bright-green. -/
theorem claim_c9_counterexample : get_color 0 ≠ dump_color 0 := by
  decide

/-- C9 amended: both modes select by `color_index mod 9` from a fixed
9-entry palette, but the palettes DIFFER: dump mode uses the palette the
claim lists (bright-green, bright-blue, bright-yellow, bright-magenta,
bright-cyan, bright-white, bright-red, yellow, green), while the TUI uses
(cyan, magenta, yellow, bright-magenta, bright-cyan, bright-green,
bright-red, bright-yellow, bright-blue). -/
theorem claim_c9_amended (i : Nat) :
    dump_color i = dump_palette.getD (i % 9) DisplayColor.whiteOnBlack
    ∧ get_color i = tui_palette.getD (i % 9) DisplayColor.cyan := by
  have h : i % 9 < 9 := Nat.mod_lt i (by omega)
  unfold dump_color get_color dump_palette tui_palette
  constructor
  · generalize hk : i % 9 = k at h ⊢
    interval_cases k <;> rfl
  · generalize hk : i % 9 = k at h ⊢
    interval_cases k <;> rfl

/-! ## Claim C8: remove_container frame conditions -/

/-- The re-selection step only flips `selected` flags: the id, name and
color of every entry are untouched. -/
theorem remove_reselect_containers_triple (s : AppState) (o : Option String) :
    (remove_reselect s o).containers.map (fun c => (c.id, c.name, c.color_index))
      = s.containers.map (fun c => (c.id, c.name, c.color_index)) := by
  cases o with
  | none => rfl
  | some name =>
      unfold remove_reselect
      dsimp only
      split
      · rw [List.map_map]
        apply List.map_congr_left
        intro c _
        dsimp only [Function.comp]
        split <;> rfl
      · split
        · show ((s.select_all).containers.map _) = _
          rw [select_all_containers_eq, List.map_map]
          apply List.map_congr_left
          intro c _
          rfl
        · rfl

/-- The re-selection step erases exactly the buffer stored under the
removed name and no other. -/
theorem remove_reselect_container_logs_eq (s : AppState) (name n : String) :
    (remove_reselect s (some name)).container_logs n
      = if n = name then [] else s.container_logs n := by
  unfold remove_reselect
  dsimp only
  by_cases hn : n = name
  · simp [hn]
  · simp only [hn, if_false]
    split
    · rfl
    · split <;> rfl

/-- When a container with the removed name survives, the re-selection
step marks every same-named entry selected. -/
theorem remove_reselect_selected (s : AppState) (name : String)
    (hsame : (s.containers.any fun c => c.name == name) = true) :
    ∀ c ∈ (remove_reselect s (some name)).containers, c.name = name → c.selected = true := by
  unfold remove_reselect
  dsimp only
  rw [if_pos hsame]
  intro c hc hname
  rcases List.mem_map.mp hc with ⟨c0, _, rfl⟩
  by_cases h0 : (c0.name == name) = true
  · simp [h0]
  · rw [if_neg h0] at hname ⊢
    exact absurd hname (by simpa using h0)

/-- C8 counterexample: with two containers both named `web` (ids `w1`,
`w2`) and a shared buffer under `web`, removing `w1` leaves the surviving
`web` entry but DROPS the buffer stored under `web` — the survivor does
not keep its per-container buffer. -/
theorem claim_c8_counterexample :
    (twin_web_state.remove_container "w1").containers.map (fun c => c.name) = ["web"]
    ∧ (twin_web_state.remove_container "w1").container_logs "web"
        ≠ twin_web_state.container_logs "web" := by
  decide

/-- C8 amended: `remove_container id` (when `id` has an entry, of name
`nm`) removes exactly the entries with that id, changing nothing but the
`selected` flags of the survivors (per the smart re-selection rule: with
a same-named survivor, every same-named entry becomes selected); buffers
are keyed by NAME, so the buffer stored under `nm` is dropped — even when
a same-named container survives — while the buffer of every other name is
unchanged. -/
theorem claim_c8_amended (s : AppState) (id nm n : String)
    (hnm : (s.containers.find? (fun c => c.id == id)).map (fun c => c.name) = some nm) :
    ((s.remove_container id).containers.map (fun c => (c.id, c.name, c.color_index))
       = (s.containers.filter (fun c => c.id != id)).map (fun c => (c.id, c.name, c.color_index)))
    ∧ (s.remove_container id).container_logs nm = []
    ∧ (n ≠ nm → (s.remove_container id).container_logs n = s.container_logs n)
    ∧ (((s.containers.filter (fun c => c.id != id)).any fun c => c.name == nm) = true →
        ∀ c ∈ (s.remove_container id).containers, c.name = nm → c.selected = true) := by
  unfold AppState.remove_container
  dsimp only
  rw [hnm]
  refine ⟨?_, ?_, fun hne => ?_, fun hsame => ?_⟩
  · rw [update_displayed_logs_containers, clamp_selection_containers]
    exact remove_reselect_containers_triple (remove_retain s id) (some nm)
  · rw [update_displayed_logs_container_logs, clamp_selection_container_logs,
        remove_reselect_container_logs_eq]
    simp
  · rw [update_displayed_logs_container_logs, clamp_selection_container_logs,
        remove_reselect_container_logs_eq]
    simp only [hne, if_false]
    rfl
  · rw [update_displayed_logs_containers, clamp_selection_containers]
    exact remove_reselect_selected (remove_retain s id) nm hsame

/-- Witness for C8 amended at `twin_web_state`. -/
theorem claim_c8_amended_witness :
    ((twin_web_state.remove_container "w1").containers.map (fun c => (c.id, c.name, c.color_index))
       = (twin_web_state.containers.filter (fun c => c.id != "w1")).map
           (fun c => (c.id, c.name, c.color_index)))
    ∧ (twin_web_state.remove_container "w1").container_logs "web" = []
    ∧ (twin_web_state.remove_container "w1").container_logs "other"
        = twin_web_state.container_logs "other"
    ∧ ∀ c ∈ (twin_web_state.remove_container "w1").containers,
        c.name = "web" → c.selected = true := by
  have h := claim_c8_amended twin_web_state "w1" "web" "other" (by decide)
  exact ⟨h.1, h.2.1, h.2.2.1 (by decide), h.2.2.2 (by decide)⟩

end DockerLogs
